import Mathlib

set_option maxRecDepth 8000

/-!
Verification of the packet-exchange bridge of the esp-wifi crate
(`src/wifi/mod.rs`): the bounded RX/TX frame queues, the smoltcp and
embassy device personalities, the driver receive callback and the
TX drain routine `send_data_if_needed`.

Bytes are modelled as `Nat`, buffers as `List Nat`.  A Rust panic is
modelled as `Option.none` on the affected operation.  The single global
critical section is modelled, where a claim needs it, as enter/exit
events in an explicit trace.
-/

namespace EspWifi

/-- Capacity of the fixed `data` array of `DataFrame` (`[u8; 1536]`). -/
def frameCapacity : Nat := 1536

/-- `DataFrame` from `src/wifi/mod.rs`: a logical length plus the fixed
1536-byte backing buffer.  `data` is the whole backing array, so a
well-formed frame has `data.length = frameCapacity`. -/
structure DataFrame where
  len : Nat
  data : List Nat
deriving Repr, DecidableEq

/-- `DataFrame::new()`: zero length, zero-filled buffer. -/
def DataFrame.new : DataFrame :=
  { len := 0, data := List.replicate frameCapacity 0 }

/-- `DataFrame::from_bytes`: sets `len = bytes.len()` and copies the bytes
into the front of the buffer.  The copy `data[..bytes.len()]` is an
out-of-bounds slice when `bytes.len() > 1536`; that panic is modelled as
`none`. -/
def DataFrame.from_bytes (bytes : List Nat) : Option DataFrame :=
  if bytes.length ≤ frameCapacity then
    some { len := bytes.length
           data := bytes ++ List.replicate (frameCapacity - bytes.length) 0 }
  else
    none

/-- `DataFrame::slice`: the first `len` bytes of the backing buffer. -/
def DataFrame.slice (f : DataFrame) : List Nat := f.data.take f.len

/-- Modelled from the spec: `SimpleQueue` lives in `crate::compat::queue`,
which is not among the provided source files; spec section 4.1 gives its
contract.  A bounded FIFO of capacity `N`: `enqueue` appends and succeeds
iff `size < N`, otherwise fails leaving the queue unchanged; `dequeue`
removes and returns the oldest element or signals empty; `is_full` and
`is_empty` are the evident queries. -/
structure SimpleQueue (α : Type) (N : Nat) where
  items : List α
deriving Repr, DecidableEq

namespace SimpleQueue

def new {α : Type} {N : Nat} : SimpleQueue α N := ⟨[]⟩

def size {α : Type} {N : Nat} (q : SimpleQueue α N) : Nat := q.items.length

def is_full {α : Type} {N : Nat} (q : SimpleQueue α N) : Bool :=
  decide (N ≤ q.items.length)

def is_empty {α : Type} {N : Nat} (q : SimpleQueue α N) : Bool :=
  q.items.isEmpty

def enqueue {α : Type} {N : Nat} (q : SimpleQueue α N) (x : α) :
    SimpleQueue α N × Bool :=
  if q.items.length < N then (⟨q.items ++ [x]⟩, true) else (q, false)

def dequeue {α : Type} {N : Nat} (q : SimpleQueue α N) :
    Option (α × SimpleQueue α N) :=
  match q.items with
  | [] => none
  | x :: xs => some (x, ⟨xs⟩)

end SimpleQueue

/-- Both `DATA_QUEUE_RX` and `DATA_QUEUE_TX` are `SimpleQueue<DataFrame, 3>`. -/
abbrev FrameQueue := SimpleQueue DataFrame 3

/-- Outcome of one invocation of the driver receive callback `recv_cb`:
the RX queue afterwards, the returned `esp_err_t` status, whether
`esp_wifi_internal_free_rx_buffer` was called on the driver buffer, and
how many times `WAKER.wake()` ran. -/
structure RecvOutcome where
  queue : FrameQueue
  status : Int
  buffer_freed : Bool
  wakes : Nat
deriving Repr, DecidableEq

/-- `recv_cb`: under the critical section, if the RX queue is not full,
build a `DataFrame` from the `len` driver bytes, enqueue it, free the
driver buffer, wake the embassy waker (embassy feature only) and return 0;
otherwise return 1 leaving everything untouched.  `none` models the panic
of the byte copy in `DataFrame::from_bytes` when `len > 1536`.  The
`embassy` flag selects whether the crate is compiled with the embassy
feature. -/
def recv_cb (embassy : Bool) (rx : FrameQueue) (buffer : List Nat) :
    Option RecvOutcome :=
  if ¬ rx.is_full then
    match DataFrame.from_bytes buffer with
    | none => none
    | some packet =>
      some { queue := (rx.enqueue packet).1
             status := 0
             buffer_freed := true
             wakes := if embassy then 1 else 0 }
  else
    some { queue := rx, status := 1, buffer_freed := false, wakes := 0 }

/-- One call to the driver `esp_wifi_internal_tx`: the `len as u16`
argument and the 1536-byte buffer the frame pointer refers to. -/
structure TxCall where
  len : Nat
  buffer : List Nat
deriving Repr, DecidableEq

/-- The `while let Some(packet) = queue.dequeue()` loop of
`send_data_if_needed`, with fuel bounding the iteration count (the loop
runs at most `size` times since every iteration dequeues).  Each dequeued
packet issues one `esp_wifi_internal_tx` call with `packet.len as u16`
and the packet buffer. -/
def drainLoop : Nat → FrameQueue → List TxCall × FrameQueue
  | 0, q => ([], q)
  | fuel + 1, q =>
    match q.dequeue with
    | none => ([], q)
    | some (p, q') =>
      let rest := drainLoop fuel q'
      ({ len := p.len % 65536, buffer := p.data } :: rest.1, rest.2)

/-- Outcome of `send_data_if_needed`: waker notifications, the driver
transmit calls issued (in order), and the TX queue afterwards. -/
structure SendOutcome where
  wakes : Nat
  calls : List TxCall
  queue : FrameQueue
deriving Repr, DecidableEq

/-- `send_data_if_needed`: inside one critical section, wake the embassy
waker (embassy feature only, unconditionally), then drain the TX queue
issuing one driver transmit call per dequeued frame. -/
def send_data_if_needed (embassy : Bool) (tx : FrameQueue) : SendOutcome :=
  let d := drainLoop tx.items.length tx
  { wakes := if embassy then 1 else 0, calls := d.1, queue := d.2 }

/-- smoltcp error values as far as this bridge distinguishes them. -/
inductive SmolError where
  | exhausted
  | other (code : Nat)
deriving Repr, DecidableEq

/-- `WifiRxToken::consume` (smoltcp personality): dequeue one frame from
the RX queue; on success apply the closure to `data.data[..]` — the FULL
1536-byte backing buffer, not the logical-length slice — and return its
result; on an empty queue return `Err(smoltcp::Error::Exhausted)`. -/
def WifiRxToken.consume (R : Type) (rx : FrameQueue)
    (f : List Nat → Except SmolError R) : Except SmolError R × FrameQueue :=
  match rx.dequeue with
  | some pq => (f pq.1.data, pq.2)
  | none => (Except.error SmolError.exhausted, rx)

/-- Outcome of `WifiTxToken::consume`: the returned `smoltcp::Result`,
plus the effects of the `send_data_if_needed` drain it triggers. -/
structure TxConsumeOutcome (R : Type) where
  result : Except SmolError R
  wakes : Nat
  calls : List TxCall
  queue : FrameQueue

/-- `WifiTxToken::consume` (smoltcp personality).  The closure is
modelled as a function from the initial contents of the `len`-byte slice
to (new slice contents, returned result); Rust guarantees the slice
length cannot change, which theorems carry as a hypothesis on `f`.
If the TX queue is full: return `Err(Exhausted)` without running the
closure (but `send_data_if_needed` still runs).  Otherwise: create a
zeroed frame, set `len`, run the closure on `data[..len]` (a panic when
`len > 1536`, modelled as `none`), enqueue the frame regardless of the
closure result, drain, and return the closure result. -/
def WifiTxToken.consume (R : Type) (embassy : Bool) (tx : FrameQueue)
    (len : Nat) (f : List Nat → List Nat × Except SmolError R) :
    Option (TxConsumeOutcome R) :=
  if tx.is_full then
    let s := send_data_if_needed embassy tx
    some { result := Except.error SmolError.exhausted
           wakes := s.wakes, calls := s.calls, queue := s.queue }
  else if len ≤ frameCapacity then
    let fr := f (List.replicate len 0)
    let packet : DataFrame :=
      { len := len, data := fr.1 ++ List.replicate (frameCapacity - len) 0 }
    let s := send_data_if_needed embassy (tx.enqueue packet).1
    some { result := fr.2, wakes := s.wakes, calls := s.calls, queue := s.queue }
  else
    none

/-- `WifiDevice::receive` (smoltcp personality): a token pair iff the RX
queue is non-empty, consulted under the critical section.  The tokens are
unit structs. -/
def WifiDevice.receive (rx : FrameQueue) : Option (Unit × Unit) :=
  if ¬ rx.is_empty then some ((), ()) else none

namespace embassy_impl

/-- `embassy_impl` `RxToken::consume`: dequeue one frame and apply the
closure to the full backing buffer; an empty queue panics
(the unreachable-marked branch), modelled as `none`. -/
def RxToken_consume (R : Type) (rx : FrameQueue) (f : List Nat → R) :
    Option (R × FrameQueue) :=
  match rx.dequeue with
  | some pq => some (f pq.1.data, pq.2)
  | none => none

/-- Outcome of the embassy `TxToken::consume` (no Result wrapper: the
closure result is returned directly). -/
structure TxConsumeOutcome (R : Type) where
  result : R
  wakes : Nat
  calls : List TxCall
  queue : FrameQueue

/-- `embassy_impl` `TxToken::consume`: no is-full check before writing;
the closure runs on `data[..len]` (panic when `len > 1536`, modelled as
`none`), the frame is enqueued, and an enqueue failure panics (modelled
as `none`); otherwise `send_data_if_needed` drains and the closure result
is returned. -/
def TxToken_consume (R : Type) (tx : FrameQueue) (len : Nat)
    (f : List Nat → List Nat × R) : Option (TxConsumeOutcome R) :=
  if len ≤ frameCapacity then
    let fr := f (List.replicate len 0)
    let packet : DataFrame :=
      { len := len, data := fr.1 ++ List.replicate (frameCapacity - len) 0 }
    let e := tx.enqueue packet
    if e.2 then
      let s := send_data_if_needed true e.1
      some { result := fr.2, wakes := s.wakes, calls := s.calls, queue := s.queue }
    else
      none
  else
    none

/-- `embassy_impl` `Device::receive`: registers the waker, then returns a
token pair iff the RX queue is non-empty AND the TX queue is not full. -/
def Device_receive (rx tx : FrameQueue) : Option (Unit × Unit) :=
  if ¬ rx.is_empty ∧ ¬ tx.is_full then some ((), ()) else none

end embassy_impl

/-- Events for the critical-section trace of `send_data_if_needed`. -/
inductive Ev where
  | csEnter
  | csExit
  | wake
  | deq (p : DataFrame)
  | driverTx (len : Nat) (buffer : List Nat)
deriving Repr, DecidableEq

def isEnter : Ev → Bool
  | Ev.csEnter => true
  | _ => false

def isExit : Ev → Bool
  | Ev.csExit => true
  | _ => false

/-- The dequeue / driver-transmit events of the drain loop, front to
back. -/
def drainEvents : List DataFrame → List Ev
  | [] => []
  | p :: rest => Ev.deq p :: Ev.driverTx (p.len % 65536) p.data :: drainEvents rest

/-- Event trace of `send_data_if_needed`, directly from the source: ONE
`critical_section::with` call wraps the optional embassy wake, and the
whole dequeue loop including every `esp_wifi_internal_tx` call. -/
def sendDataTrace (embassy : Bool) (tx : FrameQueue) : List Ev :=
  Ev.csEnter ::
    ((if embassy then [Ev.wake] else []) ++ drainEvents tx.items ++ [Ev.csExit])

/-- Critical-section depth at position `i` of a trace: enters minus exits
among the events strictly before `i`.  Depth 0 means the critical section
is not held when the event at `i` happens. -/
def heldBefore (tr : List Ev) (i : Nat) : Int :=
  ((tr.take i).countP isEnter : Int) - ((tr.take i).countP isExit : Int)

end EspWifi

namespace EspWifi

theorem is_full_false_iff (q : FrameQueue) :
    q.is_full = false ↔ q.items.length < 3 := by
  simp [SimpleQueue.is_full]

theorem enqueue_not_full (q : FrameQueue) (x : DataFrame)
    (h : q.is_full = false) :
    q.enqueue x = (⟨q.items ++ [x]⟩, true) := by
  rw [is_full_false_iff] at h
  simp [SimpleQueue.enqueue, h]

theorem enqueue_full (q : FrameQueue) (x : DataFrame)
    (h : q.is_full = true) : q.enqueue x = (q, false) := by
  simp [SimpleQueue.is_full] at h
  simp [SimpleQueue.enqueue, Nat.not_lt_of_le h]

theorem from_bytes_eq (bytes : List Nat) (h : bytes.length ≤ frameCapacity) :
    DataFrame.from_bytes bytes =
      some { len := bytes.length
             data := bytes ++ List.replicate (frameCapacity - bytes.length) 0 } := by
  simp [DataFrame.from_bytes, h]

theorem from_bytes_data_spec (bytes : List Nat) (p : DataFrame)
    (h : bytes.length ≤ frameCapacity)
    (hp : DataFrame.from_bytes bytes = some p) :
    p.len = bytes.length ∧ p.data.length = frameCapacity ∧
      p.data.take p.len = bytes := by
  rw [from_bytes_eq bytes h] at hp
  cases hp
  refine ⟨rfl, ?_, ?_⟩
  · simp [Nat.add_sub_cancel' h]
  · simp [List.take_left']

theorem drainLoop_spec (l : List DataFrame) :
    drainLoop l.length ⟨l⟩ =
      (l.map (fun p => { len := p.len % 65536, buffer := p.data }),
        (⟨[]⟩ : FrameQueue)) := by
  induction l with
  | nil => rfl
  | cons p rest ih =>
      simp only [List.length_cons, drainLoop, SimpleQueue.dequeue, List.map_cons]
      rw [ih]

theorem send_data_spec (embassy : Bool) (tx : FrameQueue) :
    send_data_if_needed embassy tx =
      { wakes := if embassy then 1 else 0
        calls := tx.items.map (fun p => { len := p.len % 65536, buffer := p.data })
        queue := ⟨[]⟩ } := by
  cases tx with
  | mk l => simp [send_data_if_needed, drainLoop_spec]

/-- C7: a Frame built by `DataFrame::from_bytes` from a slice of length
`L ≤ 1536` reads back via `slice()` as exactly the original bytes, with
logical length `L`. -/
theorem from_bytes_slice_roundtrip (bytes : List Nat)
    (h : bytes.length ≤ frameCapacity) :
    ∃ fr : DataFrame, DataFrame.from_bytes bytes = some fr ∧
      fr.slice = bytes ∧ fr.len = bytes.length := by
  refine ⟨{ len := bytes.length
            data := bytes ++ List.replicate (frameCapacity - bytes.length) 0 },
          ?_, ?_, rfl⟩
  · simp [DataFrame.from_bytes, h]
  · simp [DataFrame.slice, List.take_left']

/-- Witness for C7 at a concrete 3-byte input. -/
theorem from_bytes_slice_roundtrip_wit :
    ∃ fr : DataFrame, DataFrame.from_bytes [10, 20, 30] = some fr ∧
      fr.slice = [10, 20, 30] ∧ fr.len = 3 :=
  from_bytes_slice_roundtrip [10, 20, 30] (by decide)

/-- C1: `send_data_if_needed` dequeues every pending frame of the TX
queue in FIFO order, issuing exactly one driver transmit call per frame
with the logical length and the frame buffer, and leaves the TX queue
empty; in particular a transmit of one 50-byte frame from an empty queue
issues exactly one driver call of length 50 whose buffer starts with the
same 50 bytes.  `hinv` is the Frame data-model invariant (logical length
never exceeds the 1536-byte capacity), which every frame-creating entry
point maintains. -/
theorem send_data_drains_fifo (embassy : Bool) (tx : FrameQueue)
    (hinv : ∀ p ∈ tx.items, p.len ≤ frameCapacity) :
    ((send_data_if_needed embassy tx).calls =
        tx.items.map (fun p => { len := p.len, buffer := p.data }) ∧
      (send_data_if_needed embassy tx).queue.items = []) ∧
    (∀ (R : Type) (r : R) (written : List Nat), written.length = 50 →
      WifiTxToken.consume R embassy ⟨[]⟩ 50 (fun _ => (written, Except.ok r)) =
        some { result := Except.ok r
               wakes := if embassy then 1 else 0
               calls := [{ len := 50, buffer := written ++ List.replicate 1486 0 }]
               queue := ⟨[]⟩ } ∧
      (written ++ List.replicate 1486 0).take 50 = written) := by
  constructor
  · rw [send_data_spec]
    refine ⟨List.map_congr_left ?_, rfl⟩
    intro p hp
    have hlt : p.len < 65536 :=
      Nat.lt_of_le_of_lt (hinv p hp) (by norm_num [frameCapacity])
    simp [Nat.mod_eq_of_lt hlt]
  · intro R r written hw
    refine ⟨?_, List.take_left' hw⟩
    have hq : (⟨[]⟩ : FrameQueue).is_full = false := by decide
    rw [WifiTxToken.consume]
    simp only [hq, Bool.false_eq_true, if_false]
    rw [if_pos (by norm_num [frameCapacity])]
    rw [enqueue_not_full _ _ hq]
    simp [send_data_spec, frameCapacity]

/-- Witness for C1 at a concrete one-frame queue and a concrete 50-byte
transmit. -/
theorem send_data_drains_fifo_wit :
    ((send_data_if_needed false ⟨[{ len := 1, data := [7] }]⟩).calls =
        [{ len := 1, buffer := [7] }] ∧
      (send_data_if_needed false ⟨[{ len := 1, data := [7] }]⟩).queue.items = []) ∧
    WifiTxToken.consume Nat false ⟨[]⟩ 50
        (fun _ => (List.replicate 50 9, Except.ok 0)) =
      some { result := Except.ok 0
             wakes := 0
             calls := [{ len := 50
                         buffer := List.replicate 50 9 ++ List.replicate 1486 0 }]
             queue := ⟨[]⟩ } := by
  have h := send_data_drains_fifo false ⟨[{ len := 1, data := [7] }]⟩
    (by intro p hp; simp at hp; subst hp; norm_num [frameCapacity])
  refine ⟨⟨?_, h.1.2⟩, ?_⟩
  · rw [h.1.1]; rfl
  · exact (h.2 Nat 0 (List.replicate 50 9) (by simp)).1

/-- C2 counterexample: the claim says every sub-capacity-RX-queue
invocation appends a frame of the buffer bytes and returns 0, but on an
empty RX queue a 1537-byte driver buffer makes the byte copy in
`DataFrame::from_bytes` panic instead (out-of-bounds slice), so nothing
is appended and nothing is returned. -/
theorem recv_cb_oversize_counterexample :
    recv_cb false (⟨[]⟩ : FrameQueue) (List.replicate 1537 0) = none := by
  rfl

/-- C2 amended: for every receive-callback invocation whose buffer is
within the 1536-byte frame capacity, a non-full RX queue gets a new frame
holding exactly the buffer bytes appended, the driver buffer is released
and 0 is returned; a full RX queue returns the reject code 1 with the
queue unchanged and the buffer not released (for buffers over capacity
the accepting path panics instead, see the length-guard claim). -/
theorem recv_cb_accept_reject (embassy : Bool) (rx : FrameQueue)
    (buffer : List Nat) :
    (rx.is_full = false → buffer.length ≤ frameCapacity →
      ∃ p, DataFrame.from_bytes buffer = some p ∧
        recv_cb embassy rx buffer =
          some { queue := ⟨rx.items ++ [p]⟩
                 status := 0
                 buffer_freed := true
                 wakes := if embassy then 1 else 0 } ∧
        p.slice = buffer ∧ p.len = buffer.length) ∧
    (rx.is_full = true →
      recv_cb embassy rx buffer =
        some { queue := rx, status := 1, buffer_freed := false, wakes := 0 }) := by
  constructor
  · intro hful hlen
    refine ⟨_, from_bytes_eq buffer hlen, ?_, ?_, rfl⟩
    · rw [recv_cb, if_pos (by simp [hful]), from_bytes_eq buffer hlen]
      simp [enqueue_not_full _ _ hful]
    · have h := from_bytes_data_spec buffer _ hlen (from_bytes_eq buffer hlen)
      rw [DataFrame.slice]
      exact h.2.2
  · intro hful
    rw [recv_cb, if_neg (by simp [hful])]

/-- Witness for C2: accept on an empty queue with two bytes, reject on a
full queue. -/
theorem recv_cb_accept_reject_wit :
    recv_cb false (⟨[]⟩ : FrameQueue) [5, 6] =
      some { queue := ⟨[{ len := 2, data := [5, 6] ++ List.replicate 1534 0 }]⟩
             status := 0
             buffer_freed := true
             wakes := 0 } ∧
    recv_cb false (⟨[DataFrame.new, DataFrame.new, DataFrame.new]⟩ : FrameQueue)
        [5, 6] =
      some { queue := ⟨[DataFrame.new, DataFrame.new, DataFrame.new]⟩
             status := 1
             buffer_freed := false
             wakes := 0 } := by
  have h := recv_cb_accept_reject false (⟨[]⟩ : FrameQueue) [5, 6]
  have h2 := recv_cb_accept_reject false
    (⟨[DataFrame.new, DataFrame.new, DataFrame.new]⟩ : FrameQueue) [5, 6]
  obtain ⟨p, hp, hrun, -, -⟩ := h.1 (by decide) (by norm_num [frameCapacity])
  refine ⟨?_, h2.2 (by decide)⟩
  have hp2 : p = { len := 2, data := [5, 6] ++ List.replicate 1534 0 } := by
    rw [from_bytes_eq [5, 6] (by norm_num [frameCapacity])] at hp
    cases hp
    rfl
  rw [hp2] at hrun
  simpa using hrun

/-- C6: a device `receive()` hands out a token pair only when the RX
queue is non-empty; the smoltcp personality hands one out exactly when
the RX queue is non-empty, and both personalities return `None` on an
empty RX queue. -/
theorem receive_only_when_rx_nonempty (rx tx : FrameQueue) :
    ((WifiDevice.receive rx).isSome ↔ rx.items ≠ []) ∧
    ((embassy_impl.Device_receive rx tx).isSome → rx.items ≠ []) ∧
    (rx.items = [] →
      WifiDevice.receive rx = none ∧
        embassy_impl.Device_receive rx tx = none) := by
  refine ⟨?_, ?_, ?_⟩
  · cases hrx : rx.items with
    | nil =>
        simp [WifiDevice.receive, SimpleQueue.is_empty, hrx]
    | cons x xs =>
        simp [WifiDevice.receive, SimpleQueue.is_empty, hrx]
  · intro h
    cases hrx : rx.items with
    | nil =>
        rw [embassy_impl.Device_receive] at h
        rw [if_neg (by simp [SimpleQueue.is_empty, hrx])] at h
        simp at h
    | cons x xs => simp
  · intro hrx
    constructor
    · simp [WifiDevice.receive, SimpleQueue.is_empty, hrx]
    · rw [embassy_impl.Device_receive]
      rw [if_neg (by simp [SimpleQueue.is_empty, hrx])]

/-- Witness for C6 on concrete queues: empty RX yields no pair in either
personality. -/
theorem receive_only_when_rx_nonempty_wit :
    WifiDevice.receive (⟨[]⟩ : FrameQueue) = none ∧
      embassy_impl.Device_receive (⟨[]⟩ : FrameQueue) (⟨[]⟩ : FrameQueue) = none :=
  (receive_only_when_rx_nonempty ⟨[]⟩ ⟨[]⟩).2.2 rfl

/-- C3 counterexample: the claim says both personalities surface an empty
RX queue as a normal "no operation" value, but the embassy `RxToken`
consume on an empty RX queue takes the `panic!` branch (modelled as
`none`), not a normal return. -/
theorem embassy_rx_consume_empty_panics :
    embassy_impl.RxToken_consume Nat (⟨[]⟩ : FrameQueue)
      (fun buffer => buffer.length) = none := by
  rfl

/-- C3 amended: the smoltcp (synchronous) personality surfaces an empty
RX queue and a full TX queue as `Err(smoltcp::Error::Exhausted)` without
panicking, but the embassy (asynchronous) personality panics in both
conditions. -/
theorem exhaustion_sync_err_embassy_panic (R : Type)
    (f : List Nat → Except SmolError R) (g : List Nat → R)
    (tx : FrameQueue) (len : Nat) (embassy : Bool)
    (f2 : List Nat → List Nat × Except SmolError R)
    (g2 : List Nat → List Nat × R) (hful : tx.is_full = true) :
    WifiRxToken.consume R ⟨[]⟩ f = (Except.error SmolError.exhausted, ⟨[]⟩) ∧
    embassy_impl.RxToken_consume R ⟨[]⟩ g = none ∧
    (WifiTxToken.consume R embassy tx len f2).map
        (fun o => o.result) = some (Except.error SmolError.exhausted) ∧
    embassy_impl.TxToken_consume R tx len g2 = none := by
  refine ⟨rfl, rfl, ?_, ?_⟩
  · rw [WifiTxToken.consume, if_pos hful]
    rfl
  · rw [embassy_impl.TxToken_consume]
    by_cases hlen : len ≤ frameCapacity
    · rw [if_pos hlen]
      simp [enqueue_full _ _ hful]
    · rw [if_neg hlen]

/-- Witness for C3 on a concrete full TX queue of three frames. -/
theorem exhaustion_sync_err_embassy_panic_wit :
    WifiRxToken.consume Nat ⟨[]⟩ (fun buffer => Except.ok buffer.length) =
        (Except.error SmolError.exhausted, ⟨[]⟩) ∧
    embassy_impl.RxToken_consume Nat ⟨[]⟩ (fun buffer => buffer.length + 1) = none ∧
    (WifiTxToken.consume Nat false
          ⟨[DataFrame.new, DataFrame.new, DataFrame.new]⟩ 5
          (fun s => (s, Except.ok 0))).map (fun o => o.result) =
        some (Except.error SmolError.exhausted) ∧
    embassy_impl.TxToken_consume Nat
        ⟨[DataFrame.new, DataFrame.new, DataFrame.new]⟩ 5
        (fun s => (s, 0)) = none :=
  exhaustion_sync_err_embassy_panic Nat (fun buffer => Except.ok buffer.length)
    (fun buffer => buffer.length + 1)
    ⟨[DataFrame.new, DataFrame.new, DataFrame.new]⟩ 5 false
    (fun s => (s, Except.ok 0)) (fun s => (s, 0)) (by rfl)

/-- C4 counterexample: the claim says the consume closure receives a
slice whose length equals the logical length of the frame, but for a
frame of logical length 1 the closure receives the full 1536-byte
backing buffer. -/
theorem rx_consume_full_buffer_counterexample :
    WifiRxToken.consume Nat
        (⟨[{ len := 1, data := 7 :: List.replicate 1535 0 }]⟩ : FrameQueue)
        (fun buffer => Except.ok buffer.length) =
      (Except.ok 1536, ⟨[]⟩) ∧ (1536 : Nat) ≠ 1 := by
  constructor
  · rw [WifiRxToken.consume]
    simp [SimpleQueue.dequeue, List.length_replicate]
  · decide

/-- C4 amended: consuming an RxToken on a non-empty RX queue removes
exactly the oldest frame, in both personalities, and applies the closure
to the full 1536-byte backing buffer of that frame — whose first
logical-length bytes are exactly the bytes the frame was created from. -/
theorem rx_consume_oldest_full_buffer (R : Type) (bytes : List Nat)
    (h : bytes.length ≤ frameCapacity) (p : DataFrame)
    (hp : DataFrame.from_bytes bytes = some p) (rest : List DataFrame)
    (f : List Nat → Except SmolError R) (g : List Nat → R) :
    WifiRxToken.consume R ⟨p :: rest⟩ f = (f p.data, ⟨rest⟩) ∧
    embassy_impl.RxToken_consume R ⟨p :: rest⟩ g = some (g p.data, ⟨rest⟩) ∧
    p.data.length = frameCapacity ∧ p.data.take p.len = bytes := by
  have hspec := from_bytes_data_spec bytes p h hp
  exact ⟨rfl, rfl, hspec.2.1, hspec.2.2⟩

/-- Witness for C4 on a concrete three-byte frame. -/
theorem rx_consume_oldest_full_buffer_wit :
    WifiRxToken.consume Nat
        ⟨[{ len := 3, data := [1, 2, 3] ++ List.replicate 1533 0 }]⟩
        (fun buffer => Except.ok buffer.length) =
      ((fun buffer => Except.ok buffer.length)
          (({ len := 3, data := [1, 2, 3] ++ List.replicate 1533 0 } :
            DataFrame)).data, ⟨[]⟩) ∧
    ({ len := 3, data := [1, 2, 3] ++ List.replicate 1533 0 } :
        DataFrame).data.take 3 = [1, 2, 3] := by
  have h := rx_consume_oldest_full_buffer Nat [1, 2, 3]
    (by norm_num [frameCapacity])
    { len := 3, data := [1, 2, 3] ++ List.replicate 1533 0 }
    (by rw [from_bytes_eq [1, 2, 3] (by norm_num [frameCapacity])]; rfl)
    [] (fun buffer => Except.ok buffer.length) (fun buffer => buffer.length)
  exact ⟨h.1, h.2.2.2⟩

/-- C10: consuming a synchronous TxToken is not atomic on closure error —
when the TX queue is not full and the writer closure returns an error,
the frame holding whatever the closure wrote is still enqueued and then
immediately drained to the driver transmit call, while the closure error
value is returned to the caller. -/
theorem tx_consume_enqueues_on_error (R : Type) (embassy : Bool)
    (tx : FrameQueue) (len : Nat) (e : SmolError)
    (f : List Nat → List Nat × Except SmolError R)
    (hful : tx.is_full = false) (hlen : len ≤ frameCapacity)
    (herr : (f (List.replicate len 0)).2 = Except.error e) :
    ∃ o, WifiTxToken.consume R embassy tx len f = some o ∧
      o.result = Except.error e ∧
      o.calls =
        (tx.items ++
          [({ len := len
              data := (f (List.replicate len 0)).1 ++
                List.replicate (frameCapacity - len) 0 } : DataFrame)]).map
          (fun p : DataFrame =>
            ({ len := p.len % 65536, buffer := p.data } : TxCall)) ∧
      o.queue = ⟨[]⟩ := by
  rw [WifiTxToken.consume]
  rw [if_neg (by simp [hful]), if_pos hlen]
  simp only [enqueue_not_full _ _ hful, send_data_spec]
  exact ⟨_, rfl, herr, rfl, rfl⟩

/-- Witness for C10: a two-byte write whose closure fails with a driver
error code is still enqueued and transmitted. -/
theorem tx_consume_enqueues_on_error_wit :
    ∃ o, WifiTxToken.consume Nat false ⟨[]⟩ 2
        (fun _ => ([9, 9], Except.error (SmolError.other 5))) = some o ∧
      o.result = Except.error (SmolError.other 5) ∧
      o.calls =
        ([] ++ [({ len := 2, data := [9, 9] ++ List.replicate 1534 0 } :
            DataFrame)]).map
          (fun p : DataFrame =>
            ({ len := p.len % 65536, buffer := p.data } : TxCall)) ∧
      o.queue = ⟨[]⟩ := by
  have h := tx_consume_enqueues_on_error Nat false ⟨[]⟩ 2 (SmolError.other 5)
    (fun _ => ([9, 9], Except.error (SmolError.other 5)))
    (by rfl) (by norm_num [frameCapacity]) (by rfl)
  simpa [frameCapacity] using h

theorem drainEvents_no_cs (l : List DataFrame) :
    ∀ e ∈ drainEvents l, isEnter e = false ∧ isExit e = false := by
  induction l with
  | nil => intro e he; simp [drainEvents] at he
  | cons p rest ih =>
      intro e he
      simp only [drainEvents, List.mem_cons] at he
      rcases he with h | h | h
      · subst h; exact ⟨rfl, rfl⟩
      · subst h; exact ⟨rfl, rfl⟩
      · exact ih e h

theorem sendData_mid_no_cs (embassy : Bool) (l : List DataFrame) :
    ∀ e ∈ (if embassy then [Ev.wake] else []) ++ drainEvents l,
      isEnter e = false ∧ isExit e = false := by
  intro e he
  rw [List.mem_append] at he
  rcases he with h | h
  · cases embassy with
    | true => simp at h; subst h; exact ⟨rfl, rfl⟩
    | false => simp at h
  · exact drainEvents_no_cs l e h

/-- C5 counterexample: the claim says the driver transmit call is issued
outside the critical section, but in the trace of `send_data_if_needed`
on a one-frame TX queue the `esp_wifi_internal_tx` event (position 2)
occurs at critical-section depth 1, i.e. with the critical section
held. -/
theorem driver_tx_inside_cs_counterexample :
    (sendDataTrace false (⟨[DataFrame.new]⟩ : FrameQueue))[2]? =
        some (Ev.driverTx 0 (List.replicate 1536 0)) ∧
      heldBefore (sendDataTrace false ⟨[DataFrame.new]⟩) 2 ≠ 0 := by
  constructor
  · rfl
  · decide

/-- C5 amended: in `send_data_if_needed` the dequeue AND the driver
transmit call both happen inside the single critical section: every
`esp_wifi_internal_tx` event in the trace occurs at critical-section
depth exactly 1.  The critical section IS held across the call into
driver code. -/
theorem driver_tx_inside_cs (embassy : Bool) (tx : FrameQueue)
    (i len : Nat) (buffer : List Nat)
    (h : (sendDataTrace embassy tx)[i]? = some (Ev.driverTx len buffer)) :
    heldBefore (sendDataTrace embassy tx) i = 1 := by
  have htr : sendDataTrace embassy tx =
      Ev.csEnter ::
        (((if embassy then [Ev.wake] else []) ++ drainEvents tx.items) ++
          [Ev.csExit]) := by
    rw [sendDataTrace, List.append_assoc]
  set mid := (if embassy then [Ev.wake] else []) ++ drainEvents tx.items
    with hmid
  rcases i with _ | j
  · rw [htr] at h
    simp at h
  · rw [htr] at h
    have h' : (mid ++ [Ev.csExit])[j]? = some (Ev.driverTx len buffer) := by
      simpa using h
    have hj : j < mid.length := by
      by_contra hge
      push_neg at hge
      rcases Nat.lt_or_ge j (mid.length + 1) with hlt | hge2
      · have hje : j = mid.length := Nat.le_antisymm (Nat.lt_succ_iff.mp hlt) hge
        subst hje
        rw [List.getElem?_concat_length] at h'
        simp at h'
      · rw [List.getElem?_eq_none (by simpa using hge2)] at h'
        simp at h'
    have hzero1 : (mid.take j).countP isEnter = 0 := by
      rw [List.countP_eq_zero]
      intro a ha
      have hncs := sendData_mid_no_cs embassy tx.items a (List.take_subset j mid ha)
      simp [hncs.1]
    have hzero2 : (mid.take j).countP isExit = 0 := by
      rw [List.countP_eq_zero]
      intro a ha
      have hncs := sendData_mid_no_cs embassy tx.items a (List.take_subset j mid ha)
      simp [hncs.2]
    rw [htr, heldBefore, List.take_succ_cons,
      List.take_append_of_le_length (Nat.le_of_lt hj)]
    rw [List.countP_cons, List.countP_cons, hzero1, hzero2]
    simp [isEnter, isExit]

/-- Witness for C5 with the embassy wake event in the trace: the driver
transmit at position 3 runs at critical-section depth 1. -/
theorem driver_tx_inside_cs_wit :
    heldBefore (sendDataTrace true ⟨[DataFrame.new]⟩) 3 = 1 :=
  driver_tx_inside_cs true ⟨[DataFrame.new]⟩ 3 0 (List.replicate 1536 0) (by rfl)

/-- C8 counterexample: the claim says a wake is triggered only by a
successful RX enqueue or by a capacity-freeing TX dequeue, but
`send_data_if_needed` on an EMPTY TX queue (embassy active) wakes the
waker once while dequeuing nothing, issuing no driver call and changing
no queue state. -/
theorem send_data_wake_without_state_change :
    send_data_if_needed true (⟨[]⟩ : FrameQueue) =
      { wakes := 1, calls := [], queue := ⟨[]⟩ } := by
  rfl

/-- C8 amended: with the embassy bridge active, every successful RX
enqueue in `recv_cb` triggers exactly one wake and a rejected enqueue
triggers none; `send_data_if_needed` triggers exactly one wake per
invocation unconditionally — even when the TX queue is empty and no
queue state changes — and none without the embassy feature. -/
theorem wake_policy (rx : FrameQueue) (buffer : List Nat) (tx : FrameQueue) :
    (rx.is_full = false → buffer.length ≤ frameCapacity →
      (recv_cb true rx buffer).map RecvOutcome.wakes = some 1) ∧
    (rx.is_full = true →
      (recv_cb true rx buffer).map RecvOutcome.wakes = some 0) ∧
    (send_data_if_needed true tx).wakes = 1 ∧
    (send_data_if_needed false tx).wakes = 0 := by
  refine ⟨?_, ?_, ?_, ?_⟩
  · intro hful hlen
    rw [recv_cb, if_pos (by simp [hful]), from_bytes_eq buffer hlen]
    rfl
  · intro hful
    rw [recv_cb, if_neg (by simp [hful])]
    rfl
  · rw [send_data_spec]
    rfl
  · rw [send_data_spec]
    rfl

/-- Witness for C8: one accepted one-byte RX frame wakes once; the drain
on an empty queue also wakes once. -/
theorem wake_policy_wit :
    (recv_cb true (⟨[]⟩ : FrameQueue) [1]).map RecvOutcome.wakes = some 1 ∧
      (send_data_if_needed true (⟨[]⟩ : FrameQueue)).wakes = 1 := by
  have h := wake_policy ⟨[]⟩ [1] ⟨[]⟩
  exact ⟨h.1 (by rfl) (by norm_num [frameCapacity]), h.2.2.1⟩

/-- C9 counterexample: the claim says EVERY receive-callback invocation
with `len > 1536` panics, but `recv_cb` checks `is_full` before copying:
on a full RX queue a 1537-byte buffer is rejected normally (status 1)
with no out-of-bounds copy, and likewise a full TX queue makes
`WifiTxToken::consume` with an oversized length return `Err(Exhausted)`
without reaching the slice. -/
theorem oversize_no_panic_when_full_counterexample :
    (recv_cb false (⟨[DataFrame.new, DataFrame.new, DataFrame.new]⟩ : FrameQueue)
        (List.replicate 1537 0) =
      some { queue := ⟨[DataFrame.new, DataFrame.new, DataFrame.new]⟩
             status := 1, buffer_freed := false, wakes := 0 }) ∧
    1536 < (List.replicate 1537 (0 : Nat)).length ∧
    (WifiTxToken.consume Nat false
        (⟨[DataFrame.new, DataFrame.new, DataFrame.new]⟩ : FrameQueue) 2000
        (fun s => (s, Except.ok 0))).isSome = true := by
  refine ⟨?_, by simp, ?_⟩
  · rfl
  · rw [WifiTxToken.consume, if_pos (by rfl)]
    rfl

/-- C9 amended: the frame-creating entry points do not guard length, but
the panic is only reached when the respective queue admits the frame:
with a non-full queue, a length over 1536 makes the byte copy / slice
indexing panic in both `recv_cb` and the synchronous `TxToken` consume;
with length ≤ 1536 the indexing is in-bounds, the operations return
normally, and the created frame satisfies logical length ≤ capacity. -/
theorem length_guard (embassy : Bool) (rx tx : FrameQueue)
    (bytes : List Nat) (len : Nat) (R : Type)
    (f : List Nat → List Nat × Except SmolError R) :
    (rx.is_full = false → frameCapacity < bytes.length →
      recv_cb embassy rx bytes = none) ∧
    (tx.is_full = false → frameCapacity < len →
      WifiTxToken.consume R embassy tx len f = none) ∧
    (bytes.length ≤ frameCapacity →
      ∃ p, DataFrame.from_bytes bytes = some p ∧ p.len ≤ frameCapacity) ∧
    (tx.is_full = false → len ≤ frameCapacity →
      ∃ o, WifiTxToken.consume R embassy tx len f = some o) := by
  refine ⟨?_, ?_, ?_, ?_⟩
  · intro hful hlen
    rw [recv_cb, if_pos (by simp [hful])]
    rw [DataFrame.from_bytes, if_neg (by omega)]
  · intro hful hlen
    rw [WifiTxToken.consume, if_neg (by simp [hful]),
      if_neg (by omega)]
  · intro hlen
    refine ⟨_, from_bytes_eq bytes hlen, hlen⟩
  · intro hful hlen
    rw [WifiTxToken.consume, if_neg (by simp [hful]), if_pos hlen]
    exact ⟨_, rfl⟩

/-- Witness for C9: a 1600-byte buffer on an empty RX queue panics; an
oversized synchronous transmit on an empty TX queue panics; a two-byte
frame is created in-bounds with length within capacity; a two-byte
transmit on an empty TX queue completes. -/
theorem length_guard_wit :
    (recv_cb false (⟨[]⟩ : FrameQueue) (List.replicate 1600 1) = none) ∧
    (WifiTxToken.consume Nat false (⟨[]⟩ : FrameQueue) 1600
        (fun s => (s, Except.ok 0)) = none) ∧
    (∃ p, DataFrame.from_bytes [4, 4] = some p ∧ p.len ≤ frameCapacity) ∧
    (∃ o, WifiTxToken.consume Nat false (⟨[]⟩ : FrameQueue) 2
        (fun s => (s, Except.ok 0)) = some o) := by
  have h := length_guard false (⟨[]⟩ : FrameQueue) (⟨[]⟩ : FrameQueue)
    (List.replicate 1600 1) 1600 Nat (fun s => (s, Except.ok 0))
  have h2 := length_guard false (⟨[]⟩ : FrameQueue) (⟨[]⟩ : FrameQueue)
    [4, 4] 2 Nat (fun s => (s, Except.ok 0))
  refine ⟨h.1 (by rfl) (by simp [frameCapacity]),
    h.2.1 (by rfl) (by simp [frameCapacity]),
    h2.2.2.1 (by norm_num [frameCapacity]),
    h2.2.2.2 (by rfl) (by norm_num [frameCapacity])⟩

end EspWifi
